import Mathlib

/-!
Verification of the EV battery intelligence engine
(`ev_battery_system.py`, class `EVBatterySystem`).

The engine is a handful of closed-form arithmetic formulas over scalar
inputs.  We embed it shallowly over `ℚ`: each Python method becomes a Lean
function on an explicit state record; methods that can raise
`ZeroDivisionError` for some numeric inputs return `Option` and yield
`none` exactly where Python would raise; divisions whose denominator is a
non-zero constant are performed directly.  Python's `round(x, n)`
(round-half-to-even on `x * 10^n`) is modelled by `roundTo`.
-/

namespace EVBattery

/-- Python's `round` to an integer: round half to even (banker's rounding). -/
def pyRound (q : ℚ) : ℤ :=
  let f : ℤ := ⌊q⌋
  let r : ℚ := q - f
  if r < 1/2 then f
  else if 1/2 < r then f + 1
  else if f % 2 = 0 then f else f + 1

/-- Python's `round(x, n)`: round to `n` decimal places, half to even. -/
def roundTo (n : ℕ) (q : ℚ) : ℚ :=
  (pyRound (q * 10 ^ n) : ℚ) / 10 ^ n

/-- The mutable state of one `EVBatterySystem` instance:
`battery_capacity`, `soh` (state of health) and `current_charge`,
exactly the three fields set in `__init__`. -/
structure State where
  battery_capacity : ℚ
  soh : ℚ
  current_charge : ℚ
  deriving DecidableEq, Repr

/-- `__init__(battery_capacity_kwh, initial_soh=100)`: `current_charge`
starts at 100. -/
def mkState (battery_capacity_kwh : ℚ) (initial_soh : ℚ := 100) : State :=
  { battery_capacity := battery_capacity_kwh
    soh := initial_soh
    current_charge := 100 }

/-- `calculate_available_capacity`: `(battery_capacity * soh) / 100`. -/
def calculate_available_capacity (s : State) : ℚ :=
  s.battery_capacity * s.soh / 100

/-- Result record of `predict_range`. -/
structure RangeResult where
  range_km : ℚ
  consumption_per_100km : ℚ
  available_energy_kwh : ℚ
  deriving DecidableEq, Repr

/-- The `speed_factor` step function of `predict_range`. -/
def speed_factor (speed_kmh : ℚ) : ℚ :=
  if speed_kmh ≤ 50 then 0.85
  else if speed_kmh ≤ 80 then 1.0
  else if speed_kmh ≤ 110 then 1.25
  else 1.5

/-- The `temp_factor` step function of `predict_range`. -/
def temp_factor (temperature_c : ℚ) : ℚ :=
  if temperature_c < 0 then 1.4
  else if temperature_c < 10 then 1.25
  else if temperature_c > 35 then 1.15
  else 1.0

/-- The `ac_factor` of `predict_range`. -/
def ac_factor (ac_usage : Bool) : ℚ :=
  if ac_usage then 1.15 else 1.0

/-- The `style_factors.get(driving_style, 1.0)` dict lookup of
`predict_range`: default 1.0 on unrecognized keys, no exception. -/
def style_factor (driving_style : String) : ℚ :=
  if driving_style = "eco" then 0.85
  else if driving_style = "normal" then 1.0
  else if driving_style = "sport" then 1.3
  else 1.0

/-- The `terrain_factors.get(terrain, 1.0)` dict lookup of
`predict_range`: default 1.0 on unrecognized keys, no exception. -/
def terrain_factor (terrain : String) : ℚ :=
  if terrain = "flat" then 1.0
  else if terrain = "hilly" then 1.2
  else if terrain = "mountain" then 1.4
  else 1.0

/-- The `total_consumption` of `predict_range`: base consumption 15
kWh per 100 km times the five factors. -/
def total_consumption (speed_kmh temperature_c : ℚ) (ac_usage : Bool)
    (driving_style terrain : String) : ℚ :=
  15 * speed_factor speed_kmh * temp_factor temperature_c *
    ac_factor ac_usage * style_factor driving_style * terrain_factor terrain

/-- `predict_range(speed_kmh=60, temperature_c=25, ac_usage=False,
driving_style='normal', terrain='flat')`.  The one division by a computed
quantity is `usable_capacity / total_consumption`; the function returns
`none` exactly when that denominator is zero (where Python would raise). -/
def predict_range (s : State) (speed_kmh : ℚ := 60) (temperature_c : ℚ := 25)
    (ac_usage : Bool := false) (driving_style : String := "normal")
    (terrain : String := "flat") : Option (State × RangeResult) :=
  let tc := total_consumption speed_kmh temperature_c ac_usage
    driving_style terrain
  let available_capacity := calculate_available_capacity s
  let usable_capacity := available_capacity * s.current_charge / 100
  if tc = 0 then none
  else
    let predicted_range := usable_capacity / tc * 100
    some (s,
      { range_km := roundTo 2 predicted_range
        consumption_per_100km := roundTo 2 tc
        available_energy_kwh := roundTo 2 usable_capacity })

/-- Result record of `calculate_charging_time`.  The Python dict carries
`charger_type` only on the charging branch and `message` only on the
already-charged branch; both become `Option String`. -/
structure ChargingResult where
  charging_time_hours : ℚ
  charging_time_minutes : ℚ
  energy_added_kwh : ℚ
  charger_type : Option String
  message : Option String
  deriving DecidableEq, Repr

/-- `_get_charger_type(power_kw)`. -/
def get_charger_type (power_kw : ℚ) : String :=
  if power_kw ≤ 3.7 then "Level 1 (Home - Standard)"
  else if power_kw ≤ 11 then "Level 2 (Home - Fast)"
  else if power_kw ≤ 60 then "DC Fast Charger"
  else "Ultra-Fast DC Charger"

/-- `calculate_charging_time(target_charge=100, charger_power_kw=7.4)`.
Returns `none` exactly when Python raises: positive energy needed with
`charger_power_kw = 0` (the efficiency 0.88 is a non-zero constant). -/
def calculate_charging_time (s : State) (target_charge : ℚ := 100)
    (charger_power_kw : ℚ := 7.4) : Option (State × ChargingResult) :=
  let current_energy := calculate_available_capacity s * s.current_charge / 100
  let target_energy := calculate_available_capacity s * target_charge / 100
  let energy_needed := target_energy - current_energy
  if energy_needed ≤ 0 then
    some (s,
      { charging_time_hours := 0
        charging_time_minutes := 0
        energy_added_kwh := 0
        charger_type := none
        message := some "Battery already at or above target charge" })
  else if charger_power_kw = 0 then none
  else
    let efficiency : ℚ := 0.88
    let actual_energy_needed := energy_needed / efficiency
    let charging_time_hours := actual_energy_needed / charger_power_kw
    let charging_time_minutes := charging_time_hours * 60
    some (s,
      { charging_time_hours := roundTo 2 charging_time_hours
        charging_time_minutes := roundTo 1 charging_time_minutes
        energy_added_kwh := roundTo 2 energy_needed
        charger_type := some (get_charger_type charger_power_kw)
        message := none })

/-- `_get_health_status(soh)`. -/
def get_health_status (soh : ℚ) : String :=
  if soh ≥ 95 then "Excellent"
  else if soh ≥ 85 then "Good"
  else if soh ≥ 75 then "Fair"
  else "Poor - Consider replacement"

/-- The uncapped total degradation computed by
`calculate_battery_degradation`: time term + cycle term + fast-charge
term. -/
def total_degradation_raw (years_used avg_cycles_per_year
    fast_charge_percentage : ℚ) : ℚ :=
  years_used * 2.5 + (years_used * avg_cycles_per_year) / 1000 * 1.5 +
    (fast_charge_percentage / 100) * years_used * 1.2

/-- Result record of `calculate_battery_degradation`. -/
structure DegradationResult where
  current_soh : ℚ
  degradation_percentage : ℚ
  estimated_remaining_cycles : ℚ
  health_status : String
  deriving DecidableEq, Repr

/-- `calculate_battery_degradation(years_used, avg_cycles_per_year=200,
fast_charge_percentage=30)`: the only method that mutates the instance
(it reassigns `self.soh`).  All divisions are by non-zero constants, so
the method is total. -/
def calculate_battery_degradation (s : State) (years_used : ℚ)
    (avg_cycles_per_year : ℚ := 200) (fast_charge_percentage : ℚ := 30) :
    State × DegradationResult :=
  let total_cycles := years_used * avg_cycles_per_year
  let total_degradation :=
    total_degradation_raw years_used avg_cycles_per_year fast_charge_percentage
  let total_degradation := min total_degradation 30
  let new_soh := 100 - total_degradation
  let s' := { s with soh := max new_soh 70 }
  (s',
    { current_soh := roundTo 1 s'.soh
      degradation_percentage := roundTo 1 total_degradation
      estimated_remaining_cycles := max 0 (2000 - total_cycles)
      health_status := get_health_status s'.soh })

/-- Result record of `compare_ev_vs_ice`. -/
structure CostComparison where
  ev_annual_cost : ℚ
  ice_annual_cost : ℚ
  annual_savings : ℚ
  monthly_savings : ℚ
  savings_percentage : ℚ
  ev_cost_per_km : ℚ
  ice_cost_per_km : ℚ
  deriving DecidableEq, Repr

/-- `compare_ev_vs_ice(annual_km=15000, petrol_price_per_liter=1.8,
electricity_price_per_kwh=0.15, ice_fuel_efficiency=15)`.  Calls
`predict_range()` with all defaults.  Returns `none` exactly where Python
raises `ZeroDivisionError`, in evaluation order: `annual_km /
ice_fuel_efficiency`, then in the result dict `annual_savings /
ice_fuel_cost_per_year` and the two per-km divisions by `annual_km`. -/
def compare_ev_vs_ice (s : State) (annual_km : ℚ := 15000)
    (petrol_price_per_liter : ℚ := 1.8)
    (electricity_price_per_kwh : ℚ := 0.15)
    (ice_fuel_efficiency : ℚ := 15) : Option (State × CostComparison) :=
  match predict_range s with
  | none => none
  | some (s1, range_data) =>
    let ev_consumption_per_100km := range_data.consumption_per_100km
    let ev_energy_per_year := annual_km / 100 * ev_consumption_per_100km
    let ev_fuel_cost_per_year := ev_energy_per_year * electricity_price_per_kwh
    if ice_fuel_efficiency = 0 then none
    else
      let ice_liters_per_year := annual_km / ice_fuel_efficiency
      let ice_fuel_cost_per_year := ice_liters_per_year * petrol_price_per_liter
      let annual_savings := ice_fuel_cost_per_year - ev_fuel_cost_per_year
      let monthly_savings := annual_savings / 12
      if ice_fuel_cost_per_year = 0 then none
      else if annual_km = 0 then none
      else
        some (s1,
          { ev_annual_cost := roundTo 2 ev_fuel_cost_per_year
            ice_annual_cost := roundTo 2 ice_fuel_cost_per_year
            annual_savings := roundTo 2 annual_savings
            monthly_savings := roundTo 2 monthly_savings
            savings_percentage :=
              roundTo 1 (annual_savings / ice_fuel_cost_per_year * 100)
            ev_cost_per_km := roundTo 3 (ev_fuel_cost_per_year / annual_km)
            ice_cost_per_km := roundTo 3 (ice_fuel_cost_per_year / annual_km) })

/-- The low-charge warning string appended when `current_charge < 20`. -/
def lowChargeWarning : String :=
  "‚ö†Ô∏è Charge soon - Low battery can stress cells"

/-- The high-charge warning string appended when `current_charge > 90`. -/
def highChargeWarning : String :=
  "‚úì Avoid charging to 100% daily - Keep between 20-80% for longevity"

/-- The four fixed general-advice strings, in source order. -/
def fixedAdvice : List String :=
  ["üí° Ideal daily range: 20% - 80% charge",
   "üîå Use slow charging when possible - Reduces heat stress",
   "üå°Ô∏è Avoid extreme temperatures while charging",
   "‚ö° Fast charging: Use only when necessary (<20% of charges)"]

/-- `optimal_charging_recommendation()`: builds the list by sequential
appends, mirroring the Python `recommendations.append` calls. -/
def optimal_charging_recommendation (s : State) : State × List String :=
  let recommendations : List String := []
  let recommendations :=
    if s.current_charge < 20 then recommendations ++ [lowChargeWarning]
    else recommendations
  let recommendations :=
    if s.current_charge > 90 then recommendations ++ [highChargeWarning]
    else recommendations
  let recommendations := recommendations ++ fixedAdvice
  (s, recommendations)

/-! ### Facts about the rounding model -/

/-- `pyRound` returns the floor or the floor plus one. -/
theorem pyRound_cases (q : ℚ) : pyRound q = ⌊q⌋ ∨ pyRound q = ⌊q⌋ + 1 := by
  unfold pyRound
  dsimp only
  split_ifs <;> simp

/-- `pyRound` is the identity on integers. -/
theorem pyRound_intCast (m : ℤ) : pyRound (m : ℚ) = m := by
  unfold pyRound
  norm_num

/-- `pyRound` respects integer upper bounds. -/
theorem pyRound_le_int {q : ℚ} {M : ℤ} (h : q ≤ (M : ℚ)) : pyRound q ≤ M := by
  have hf : ⌊q⌋ ≤ M := by
    have := Int.floor_le_floor h
    simpa using this
  rcases eq_or_lt_of_le hf with he | hlt
  · have hq : q = (M : ℚ) := by
      have h1 : (M : ℚ) ≤ q := by
        have := Int.floor_le q
        rw [he] at this
        exact_mod_cast this
      linarith
    rw [hq, pyRound_intCast]
  · rcases pyRound_cases q with h1 | h1 <;> omega

/-- `pyRound` respects integer lower bounds. -/
theorem int_le_pyRound {q : ℚ} {m : ℤ} (h : (m : ℚ) ≤ q) : m ≤ pyRound q := by
  have hf : m ≤ ⌊q⌋ := Int.le_floor.mpr h
  rcases pyRound_cases q with h1 | h1 <;> omega

/-- `roundTo` respects integer upper bounds. -/
theorem roundTo_le_int (n : ℕ) {q : ℚ} {M : ℤ} (h : q ≤ (M : ℚ)) :
    roundTo n q ≤ (M : ℚ) := by
  unfold roundTo
  have hpow : (0 : ℚ) < 10 ^ n := by positivity
  have h1 : q * 10 ^ n ≤ ((M * 10 ^ n : ℤ) : ℚ) := by
    push_cast
    exact mul_le_mul_of_nonneg_right h hpow.le
  have h2 : pyRound (q * 10 ^ n) ≤ M * 10 ^ n := pyRound_le_int h1
  calc ((pyRound (q * 10 ^ n) : ℚ)) / 10 ^ n
      ≤ ((M * 10 ^ n : ℤ) : ℚ) / 10 ^ n := by
        gcongr
    _ = (M : ℚ) := by
        push_cast
        field_simp

/-- `roundTo` respects integer lower bounds. -/
theorem int_le_roundTo (n : ℕ) {q : ℚ} {m : ℤ} (h : (m : ℚ) ≤ q) :
    (m : ℚ) ≤ roundTo n q := by
  unfold roundTo
  have hpow : (0 : ℚ) < 10 ^ n := by positivity
  have h1 : ((m * 10 ^ n : ℤ) : ℚ) ≤ q * 10 ^ n := by
    push_cast
    exact mul_le_mul_of_nonneg_right h hpow.le
  have h2 : m * 10 ^ n ≤ pyRound (q * 10 ^ n) := int_le_pyRound h1
  calc (m : ℚ) = ((m * 10 ^ n : ℤ) : ℚ) / 10 ^ n := by
        push_cast
        field_simp
    _ ≤ ((pyRound (q * 10 ^ n) : ℚ)) / 10 ^ n := by
        gcongr

/-! ### Facts about the consumption factors -/

/-- The speed step function only takes positive values. -/
theorem speed_factor_pos (v : ℚ) : 0 < speed_factor v := by
  unfold speed_factor
  split_ifs <;> norm_num

/-- The temperature step function only takes positive values. -/
theorem temp_factor_pos (t : ℚ) : 0 < temp_factor t := by
  unfold temp_factor
  split_ifs <;> norm_num

/-- The AC factor only takes positive values. -/
theorem ac_factor_pos (b : Bool) : 0 < ac_factor b := by
  unfold ac_factor
  split_ifs <;> norm_num

/-- The driving-style lookup only takes positive values. -/
theorem style_factor_pos (st : String) : 0 < style_factor st := by
  unfold style_factor
  split_ifs <;> norm_num

/-- The terrain lookup only takes positive values. -/
theorem terrain_factor_pos (te : String) : 0 < terrain_factor te := by
  unfold terrain_factor
  split_ifs <;> norm_num

/-- The total consumption of `predict_range` is positive, so its division
never has a zero denominator. -/
theorem total_consumption_pos (sp t : ℚ) (ac : Bool) (st te : String) :
    0 < total_consumption sp t ac st te := by
  unfold total_consumption
  have h1 := speed_factor_pos sp
  have h2 := temp_factor_pos t
  have h3 := ac_factor_pos ac
  have h4 := style_factor_pos st
  have h5 := terrain_factor_pos te
  positivity

/-- Closed form of `predict_range`: it always succeeds, never mutates the
state, and returns the rounded range, consumption and usable energy. -/
theorem predict_range_eq (s : State) (sp t : ℚ) (ac : Bool) (st te : String) :
    predict_range s sp t ac st te = some (s,
      { range_km := roundTo 2 (calculate_available_capacity s *
          s.current_charge / 100 / total_consumption sp t ac st te * 100)
        consumption_per_100km := roundTo 2 (total_consumption sp t ac st te)
        available_energy_kwh := roundTo 2 (calculate_available_capacity s *
          s.current_charge / 100) }) := by
  unfold predict_range
  rw [if_neg (ne_of_gt (total_consumption_pos sp t ac st te))]

/-! ### The claims -/

/-- C1, counterexample.  The claim says the stored `soh` never rises across
any sequence of `calculate_battery_degradation` calls, for all argument
values.  It is false: each call overwrites `soh` with a value computed from
that call's arguments alone, so after a call with `years_used = 5`
(soh becomes 84.2) a second call with `years_used = 0` resets `soh`
to 100 - a strict rise. -/
theorem soh_rises_on_smaller_degradation_cx :
    ((calculate_battery_degradation (mkState 60) 5 200 30).1).soh <
    ((calculate_battery_degradation
        ((calculate_battery_degradation (mkState 60) 5 200 30).1) 0 200 30).1).soh := by
  norm_num [calculate_battery_degradation, total_degradation_raw, mkState,
    min_def, max_def]

/-- C1, amended.  Across consecutive calls to
`calculate_battery_degradation`, the stored `soh` does not rise provided
the second call's computed raw total degradation is at least the first
call's; each call sets `soh = max (100 - min deg 30) 70` from its own
arguments alone, regardless of the previous value. -/
theorem soh_nonincreasing_of_degradation_nondecreasing
    (s : State) (y c f y2 c2 f2 : ℚ)
    (h : total_degradation_raw y c f ≤ total_degradation_raw y2 c2 f2) :
    ((calculate_battery_degradation
        ((calculate_battery_degradation s y c f).1) y2 c2 f2).1).soh ≤
    ((calculate_battery_degradation s y c f).1).soh := by
  simp only [calculate_battery_degradation]
  have hm : min (total_degradation_raw y c f) 30 ≤
      min (total_degradation_raw y2 c2 f2) 30 := min_le_min h le_rfl
  exact max_le_max (by linarith) le_rfl

/-- C1, witness: one year of use followed by two years of use. -/
theorem soh_nonincreasing_witness :
    ((calculate_battery_degradation
        ((calculate_battery_degradation (mkState 60) 1 200 30).1) 2 200 30).1).soh ≤
    ((calculate_battery_degradation (mkState 60) 1 200 30).1).soh :=
  soh_nonincreasing_of_degradation_nondecreasing (mkState 60) 1 200 30 2 200 30
    (by norm_num [total_degradation_raw])

/-- C2, counterexample.  The claimed bounds (soh in [70, 100], degradation
in [0, 30]) fail for unrestricted arguments: with `years_used = -1` the
computed degradation is -3.16, so the returned `current_soh` is 103.2 > 100
and the returned `degradation_percentage` is negative. -/
theorem degradation_bounds_fail_negative_years_cx :
    100 < ((calculate_battery_degradation (mkState 60) (-1) 200 30).2).current_soh ∧
    ((calculate_battery_degradation (mkState 60) (-1) 200 30).2).degradation_percentage < 0 := by
  constructor <;>
    norm_num [calculate_battery_degradation, total_degradation_raw, mkState,
      min_def, max_def, roundTo, pyRound]

/-- C2, amended.  For every call of `calculate_battery_degradation` with
non-negative `years_used`, `avg_cycles_per_year` and
`fast_charge_percentage`, the returned `current_soh` lies within [70, 100]
and the returned `degradation_percentage` lies within [0, 30]. -/
theorem degradation_result_bounds (s : State) (y c f : ℚ)
    (hy : 0 ≤ y) (hc : 0 ≤ c) (hf : 0 ≤ f) :
    70 ≤ ((calculate_battery_degradation s y c f).2).current_soh ∧
    ((calculate_battery_degradation s y c f).2).current_soh ≤ 100 ∧
    0 ≤ ((calculate_battery_degradation s y c f).2).degradation_percentage ∧
    ((calculate_battery_degradation s y c f).2).degradation_percentage ≤ 30 := by
  have hraw : 0 ≤ total_degradation_raw y c f := by
    unfold total_degradation_raw
    have h1 : 0 ≤ y * c := mul_nonneg hy hc
    have h2 : 0 ≤ f * y := mul_nonneg hf hy
    nlinarith
  have hmin0 : 0 ≤ min (total_degradation_raw y c f) 30 :=
    le_min hraw (by norm_num)
  have hmin30 : min (total_degradation_raw y c f) 30 ≤ 30 := min_le_right _ _
  have hsoh1 : (70 : ℚ) ≤ max (100 - min (total_degradation_raw y c f) 30) 70 :=
    le_max_right _ _
  have hsoh2 : max (100 - min (total_degradation_raw y c f) 30) 70 ≤ 100 :=
    max_le (by linarith) (by norm_num)
  simp only [calculate_battery_degradation]
  refine ⟨?_, ?_, ?_, ?_⟩
  · exact_mod_cast int_le_roundTo 1 (m := 70) (by exact_mod_cast hsoh1)
  · exact_mod_cast roundTo_le_int 1 (M := 100) (by exact_mod_cast hsoh2)
  · exact_mod_cast int_le_roundTo 1 (m := 0) (by exact_mod_cast hmin0)
  · exact_mod_cast roundTo_le_int 1 (M := 30) (by exact_mod_cast hmin30)

/-- C2, witness: two years of use with the default usage pattern. -/
theorem degradation_result_bounds_witness :
    70 ≤ ((calculate_battery_degradation (mkState 60) 2 200 30).2).current_soh ∧
    ((calculate_battery_degradation (mkState 60) 2 200 30).2).current_soh ≤ 100 ∧
    0 ≤ ((calculate_battery_degradation (mkState 60) 2 200 30).2).degradation_percentage ∧
    ((calculate_battery_degradation (mkState 60) 2 200 30).2).degradation_percentage ≤ 30 :=
  degradation_result_bounds (mkState 60) 2 200 30 (by norm_num) (by norm_num)
    (by norm_num)

/-- C3, counterexample.  The claim says no operation other than
`savingsPercentage` can divide by zero for any numeric inputs; but
`calculate_charging_time` divides by `charger_power_kw`, so at charger
power 0 with positive energy needed it divides by zero (modelled as
`none`). -/
theorem charging_time_zero_power_div_cx :
    calculate_charging_time
      { battery_capacity := 60, soh := 100, current_charge := 50 } 100 0 = none := by
  norm_num [calculate_charging_time, calculate_available_capacity]

/-- C3, amended.  `predict_range` never divides by zero; with
`charger_power_kw ≠ 0`, `calculate_charging_time` never divides by zero;
and with `annual_km ≠ 0` and `ice_fuel_efficiency ≠ 0`,
`compare_ev_vs_ice` divides by zero exactly when the ICE annual cost
`annual_km / ice_fuel_efficiency * petrol_price` is zero - the
`savingsPercentage` edge case singled out by the spec. -/
theorem division_safety (s : State) (sp t : ℚ) (ac : Bool) (st te : String)
    (tc p : ℚ) (hp : p ≠ 0) (a pp ep eff : ℚ) (ha : a ≠ 0) (heff : eff ≠ 0) :
    (predict_range s sp t ac st te).isSome ∧
    (calculate_charging_time s tc p).isSome ∧
    (compare_ev_vs_ice s a pp ep eff = none ↔ a / eff * pp = 0) := by
  refine ⟨?_, ?_, ?_⟩
  · rw [predict_range_eq]
    rfl
  · unfold calculate_charging_time
    dsimp only
    split_ifs <;> simp_all
  · unfold compare_ev_vs_ice
    rw [predict_range_eq]
    dsimp only
    rw [if_neg heff]
    by_cases hic : a / eff * pp = 0
    · simp [hic]
    · simp [hic, ha]

/-- C3, witness: the default charging and cost-comparison inputs. -/
theorem division_safety_witness :
    (predict_range (mkState 60) 80 25 false "normal" "flat").isSome ∧
    (calculate_charging_time (mkState 60) 100 7.4).isSome ∧
    (compare_ev_vs_ice (mkState 60) 15000 1.8 0.15 15 = none ↔
      (15000 : ℚ) / 15 * 1.8 = 0) :=
  division_safety (mkState 60) 80 25 false "normal" "flat" 100 7.4 (by norm_num)
    15000 1.8 0.15 15 (by norm_num) (by norm_num)

/-- C4.  Whenever the computed energy needed is ≤ 0 - in particular
whenever `target_charge ≤ current_charge` on a state with non-negative
capacity and soh - `calculate_charging_time` returns zero hours, zero
minutes, zero energy added and the already-charged message, leaves the
state unchanged, and (the state being unchanged) a repeated call returns
the identical result. -/
theorem charging_time_already_charged (s : State) (t p : ℚ) :
    (calculate_available_capacity s * t / 100 -
        calculate_available_capacity s * s.current_charge / 100 ≤ 0 →
      calculate_charging_time s t p = some (s,
        { charging_time_hours := 0, charging_time_minutes := 0,
          energy_added_kwh := 0, charger_type := none,
          message := some "Battery already at or above target charge" }) ∧
      ∀ s2 r, calculate_charging_time s t p = some (s2, r) →
        calculate_charging_time s2 t p = some (s2, r)) ∧
    (0 ≤ s.battery_capacity → 0 ≤ s.soh → t ≤ s.current_charge →
      calculate_available_capacity s * t / 100 -
        calculate_available_capacity s * s.current_charge / 100 ≤ 0) := by
  constructor
  · intro hE
    have heq : calculate_charging_time s t p = some (s,
        { charging_time_hours := 0, charging_time_minutes := 0,
          energy_added_kwh := 0, charger_type := none,
          message := some "Battery already at or above target charge" }) := by
      unfold calculate_charging_time
      dsimp only
      rw [if_pos hE]
    refine ⟨heq, ?_⟩
    intro s2 r h2
    rw [heq] at h2
    simp only [Option.some.injEq, Prod.mk.injEq] at h2
    obtain ⟨h21, h22⟩ := h2
    rw [← h21, ← h22]
    exact heq
  · intro hcap hsoh ht
    have hav : 0 ≤ calculate_available_capacity s := by
      unfold calculate_available_capacity
      exact div_nonneg (mul_nonneg hcap hsoh) (by norm_num)
    have h2 := mul_le_mul_of_nonneg_left ht hav
    linarith

/-- C4, witness: a full battery asked to charge down to 50%. -/
theorem charging_time_already_charged_witness :
    calculate_charging_time
      { battery_capacity := 60, soh := 100, current_charge := 100 } 50 7.4 =
      some ({ battery_capacity := 60, soh := 100, current_charge := 100 },
        { charging_time_hours := 0, charging_time_minutes := 0,
          energy_added_kwh := 0, charger_type := none,
          message := some "Battery already at or above target charge" }) := by
  have h := charging_time_already_charged
    { battery_capacity := 60, soh := 100, current_charge := 100 } 50 7.4
  exact (h.1 (h.2 (by norm_num) (by norm_num) (by norm_num))).1

/-- C5.  `predict_range` computes consumption per 100 km as 15 times the
five factors with exactly the claimed thresholds, lookup values and
fallbacks (first matching threshold winning, unrecognized style or terrain
falling back to 1.0 without raising); usable energy is
`availableCapacity * current_charge / 100`, range is
`usableEnergy / consumption * 100`, and the three outputs are rounded to
2 decimal places. -/
theorem predict_range_formula (s : State) (sp t : ℚ) (ac : Bool) (st te : String) :
    predict_range s sp t ac st te = some (s,
      { range_km := roundTo 2 (calculate_available_capacity s * s.current_charge / 100 /
          (15 * (if sp ≤ 50 then (0.85 : ℚ) else if sp ≤ 80 then 1.0
              else if sp ≤ 110 then 1.25 else 1.5) *
            (if t < 0 then 1.4 else if t < 10 then 1.25
              else if t > 35 then 1.15 else 1.0) *
            (if ac then 1.15 else 1.0) *
            (if st = "eco" then 0.85 else if st = "normal" then 1.0
              else if st = "sport" then 1.3 else 1.0) *
            (if te = "flat" then 1.0 else if te = "hilly" then 1.2
              else if te = "mountain" then 1.4 else 1.0)) * 100)
        consumption_per_100km := roundTo 2
          (15 * (if sp ≤ 50 then (0.85 : ℚ) else if sp ≤ 80 then 1.0
              else if sp ≤ 110 then 1.25 else 1.5) *
            (if t < 0 then 1.4 else if t < 10 then 1.25
              else if t > 35 then 1.15 else 1.0) *
            (if ac then 1.15 else 1.0) *
            (if st = "eco" then 0.85 else if st = "normal" then 1.0
              else if st = "sport" then 1.3 else 1.0) *
            (if te = "flat" then 1.0 else if te = "hilly" then 1.2
              else if te = "mountain" then 1.4 else 1.0))
        available_energy_kwh := roundTo 2 (calculate_available_capacity s *
          s.current_charge / 100) }) := by
  rw [predict_range_eq]
  rfl

/-- C6.  With positive energy needed, `calculate_charging_time` divides the
energy needed by the fixed efficiency 0.88, divides by the charger power
for hours, multiplies by 60 for minutes, and classifies the charger by the
claimed power bands; in particular at capacity 60, soh 100, charge 50% to
target 100% at 7.4 kW, the energy needed is 30 kWh, hours round to 4.61
and minutes to 276.4. -/
theorem charging_time_formula (s : State) (t p : ℚ)
    (hE : 0 < calculate_available_capacity s * t / 100 -
      calculate_available_capacity s * s.current_charge / 100)
    (hp : p ≠ 0) :
    calculate_charging_time s t p = some (s,
      { charging_time_hours := roundTo 2 ((calculate_available_capacity s * t / 100 -
          calculate_available_capacity s * s.current_charge / 100) / 0.88 / p)
        charging_time_minutes := roundTo 1 ((calculate_available_capacity s * t / 100 -
          calculate_available_capacity s * s.current_charge / 100) / 0.88 / p * 60)
        energy_added_kwh := roundTo 2 (calculate_available_capacity s * t / 100 -
          calculate_available_capacity s * s.current_charge / 100)
        charger_type := some (if p ≤ 3.7 then "Level 1 (Home - Standard)"
          else if p ≤ 11 then "Level 2 (Home - Fast)"
          else if p ≤ 60 then "DC Fast Charger" else "Ultra-Fast DC Charger")
        message := none }) ∧
    calculate_charging_time
      { battery_capacity := 60, soh := 100, current_charge := 50 } 100 7.4 =
      some ({ battery_capacity := 60, soh := 100, current_charge := 50 },
        { charging_time_hours := 4.61, charging_time_minutes := 276.4,
          energy_added_kwh := 30,
          charger_type := some "Level 2 (Home - Fast)", message := none }) := by
  constructor
  · unfold calculate_charging_time get_charger_type
    dsimp only
    rw [if_neg (not_le.mpr hE), if_neg hp]
  · norm_num [calculate_charging_time, calculate_available_capacity,
      get_charger_type, roundTo, pyRound, ChargingResult.mk.injEq]

/-- C6, witness: the concrete 60 kWh, 50% to 100%, 7.4 kW case. -/
theorem charging_time_formula_witness :
    calculate_charging_time
      { battery_capacity := 60, soh := 100, current_charge := 50 } 100 7.4 =
      some ({ battery_capacity := 60, soh := 100, current_charge := 50 },
        { charging_time_hours := 4.61, charging_time_minutes := 276.4,
          energy_added_kwh := 30,
          charger_type := some "Level 2 (Home - Fast)", message := none }) :=
  (charging_time_formula
    { battery_capacity := 60, soh := 100, current_charge := 50 } 100 7.4
    (by norm_num [calculate_available_capacity]) (by norm_num)).2

/-- C7.  `compare_ev_vs_ice` takes its consumption figure from
`predict_range` called with the default parameters (speed 60, temperature
25, no AC, normal style, flat terrain) regardless of its own inputs, and
computes EV annual cost, ICE annual cost, savings, monthly savings and
savings percentage by exactly the claimed formulas. -/
theorem compare_formula (s : State) (a pp ep eff : ℚ) (rd : State × RangeResult)
    (hrd : predict_range s 60 25 false "normal" "flat" = some rd)
    (heff : eff ≠ 0) (ha : a ≠ 0) (hic : a / eff * pp ≠ 0) :
    compare_ev_vs_ice s a pp ep eff = some (s,
      { ev_annual_cost := roundTo 2 (a / 100 * rd.2.consumption_per_100km * ep)
        ice_annual_cost := roundTo 2 (a / eff * pp)
        annual_savings := roundTo 2 (a / eff * pp -
          a / 100 * rd.2.consumption_per_100km * ep)
        monthly_savings := roundTo 2 ((a / eff * pp -
          a / 100 * rd.2.consumption_per_100km * ep) / 12)
        savings_percentage := roundTo 1 ((a / eff * pp -
          a / 100 * rd.2.consumption_per_100km * ep) / (a / eff * pp) * 100)
        ev_cost_per_km := roundTo 3 (a / 100 * rd.2.consumption_per_100km * ep / a)
        ice_cost_per_km := roundTo 3 (a / eff * pp / a) }) := by
  obtain ⟨s1, r⟩ := rd
  rw [predict_range_eq] at hrd
  simp only [Option.some.injEq, Prod.mk.injEq] at hrd
  obtain ⟨h1, h2⟩ := hrd
  subst h1
  subst h2
  unfold compare_ev_vs_ice
  rw [predict_range_eq]
  dsimp only
  rw [if_neg heff, if_neg hic, if_neg ha]

/-- C7, witness: the regression inputs of the spec
(15000 km, petrol 1.10, electricity 0.08, 15 km per liter). -/
theorem compare_formula_witness :
    compare_ev_vs_ice (mkState 60) 15000 1.1 0.08 15 = some (mkState 60,
      { ev_annual_cost := roundTo 2 ((15000 : ℚ) / 100 * 15 * 0.08)
        ice_annual_cost := roundTo 2 ((15000 : ℚ) / 15 * 1.1)
        annual_savings := roundTo 2 ((15000 : ℚ) / 15 * 1.1 -
          15000 / 100 * 15 * 0.08)
        monthly_savings := roundTo 2 (((15000 : ℚ) / 15 * 1.1 -
          15000 / 100 * 15 * 0.08) / 12)
        savings_percentage := roundTo 1 (((15000 : ℚ) / 15 * 1.1 -
          15000 / 100 * 15 * 0.08) / (15000 / 15 * 1.1) * 100)
        ev_cost_per_km := roundTo 3 ((15000 : ℚ) / 100 * 15 * 0.08 / 15000)
        ice_cost_per_km := roundTo 3 ((15000 : ℚ) / 15 * 1.1 / 15000) }) := by
  have h := compare_formula (mkState 60) 15000 1.1 0.08 15
    (mkState 60,
      { range_km := 400
        consumption_per_100km := 15
        available_energy_kwh := 60 })
    (by
      rw [predict_range_eq]
      have hc : total_consumption 60 25 false "normal" "flat" = 15 := by
        simp [total_consumption, speed_factor, temp_factor, ac_factor,
          style_factor, terrain_factor]
        norm_num
      rw [hc]
      norm_num [calculate_available_capacity, mkState, roundTo, pyRound,
        RangeResult.mk.injEq])
    (by norm_num) (by norm_num) (by norm_num)
  simpa using h

/-- C8.  For soh within [70, 100] on a positively-sized battery,
`calculate_available_capacity` returns exactly
`battery_capacity * soh / 100`, which never exceeds the capacity; the
embedding is a pure function of the state, so there is no side effect. -/
theorem available_capacity_formula (s : State) (hcap : 0 < s.battery_capacity)
    (h1 : 70 ≤ s.soh) (h2 : s.soh ≤ 100) :
    calculate_available_capacity s = s.battery_capacity * s.soh / 100 ∧
    calculate_available_capacity s ≤ s.battery_capacity := by
  refine ⟨rfl, ?_⟩
  unfold calculate_available_capacity
  rw [div_le_iff₀ (by norm_num : (0:ℚ) < 100)]
  nlinarith [h1]

/-- C8, witness: a 60 kWh battery at 90% soh. -/
theorem available_capacity_formula_witness :
    calculate_available_capacity
      { battery_capacity := 60, soh := 90, current_charge := 75 } =
      (60 : ℚ) * 90 / 100 ∧
    calculate_available_capacity
      { battery_capacity := 60, soh := 90, current_charge := 75 } ≤ 60 :=
  available_capacity_formula { battery_capacity := 60, soh := 90, current_charge := 75 }
    (by norm_num) (by norm_num) (by norm_num)

/-- C9.  The recommendation list is the optional low-charge warning
(exactly when charge < 20), then the optional high-charge warning (exactly
when charge > 90), then the four fixed general-advice strings in fixed
order; the two warnings can never appear together. -/
theorem recommendation_structure (s : State) :
    (optimal_charging_recommendation s).2 =
      (if s.current_charge < 20 then [lowChargeWarning] else []) ++
      (if s.current_charge > 90 then [highChargeWarning] else []) ++ fixedAdvice ∧
    ¬(s.current_charge < 20 ∧ s.current_charge > 90) := by
  constructor
  · unfold optimal_charging_recommendation
    dsimp only
    split_ifs <;> simp
  · rintro ⟨hlo, hhi⟩
    linarith

/-- C10.  Only `calculate_battery_degradation` mutates the model, and only
its `soh` field: `predict_range`, `calculate_charging_time`,
`compare_ev_vs_ice` and `optimal_charging_recommendation` all return the
state they were given (whenever they return at all), and the degradation
call preserves `battery_capacity` and `current_charge`. -/
theorem engine_frame_effects (s : State) (sp t : ℚ) (ac : Bool) (st te : String)
    (tc p a pp ep eff y c f : ℚ) :
    (∃ r, predict_range s sp t ac st te = some (s, r)) ∧
    (calculate_charging_time s tc p = none ∨
      ∃ r, calculate_charging_time s tc p = some (s, r)) ∧
    (compare_ev_vs_ice s a pp ep eff = none ∨
      ∃ r, compare_ev_vs_ice s a pp ep eff = some (s, r)) ∧
    (optimal_charging_recommendation s).1 = s ∧
    ((calculate_battery_degradation s y c f).1).battery_capacity = s.battery_capacity ∧
    ((calculate_battery_degradation s y c f).1).current_charge = s.current_charge := by
  refine ⟨⟨_, predict_range_eq s sp t ac st te⟩, ?_, ?_, rfl, rfl, rfl⟩
  · unfold calculate_charging_time
    dsimp only
    split_ifs
    · right; exact ⟨_, rfl⟩
    · left; rfl
    · right; exact ⟨_, rfl⟩
  · unfold compare_ev_vs_ice
    rw [predict_range_eq]
    dsimp only
    split_ifs
    · left; rfl
    · left; rfl
    · left; rfl
    · right; exact ⟨_, rfl⟩

end EVBattery
